import Mathlib

/-!
Verification development for the invoice-generator service
(`src/invoice/app.py`, served through `src/api/index.py`).

Modelling conventions:
* Python strings are Lean `String`s; `request.form.to_dict()` is an
  association list whose lookup returns the first binding of a key.
* Python floats are modelled as exact rationals (`ℚ`); the float literals
  `0.05`, `1.05`, `0.7`, … of the source appear as the rationals `5/100`,
  `105/100`, `7/10`, ….  `float(...)` parsing and the `f"{v:,.0f}"` money
  format are library behaviour outside the repository and enter the model
  as components of an environment record (`Env.pyFloat`, `Env.fmtMoney`).
* The ReportLab canvas is modelled by the list of drawing operations the
  code issues (`DrawOp`); the PDF written by `c.save()` is determined by
  that list.  `drawImage` records the image's size and placement (the PDF
  embeds the image bytes, not the path it was read from).
* Filesystem writes and removals are recorded as `FsEffect`s.  Fallible
  library calls (cairosvg availability and success, `os.path.exists`,
  `ImageReader`/`drawImage`, `colors.HexColor` validation, `file.save`,
  `send_file`) are resolved by Boolean/Option fields of the environment
  records; an exception a `try`
  swallows is a `none`/`false` branch, an exception that propagates is an
  `Except.error` / error outcome.
* The `while` loop over `product_name_{idx}` keys runs with fuel
  `data.length + 1`; lemmas below show the fuel is irrelevant once it
  exceeds the first missing index.
-/

namespace InvoiceGen

/-- `request.form.to_dict()`: a flat string-to-string mapping, modelled as an
association list (first binding wins, as in werkzeug's `to_dict`). -/
abbrev FormData := List (String × String)

/-- Dictionary lookup: `data[k]` as an `Option`. -/
def lookup (data : FormData) (k : String) : Option String :=
  (data.find? (fun p => p.1 == k)).map Prod.snd

/-- Python `data.get(k, d)`. -/
def getD (data : FormData) (k d : String) : String :=
  (lookup data k).getD d

/-- Python `k in data`. -/
def hasKey (data : FormData) (k : String) : Bool :=
  (lookup data k).isSome

/-! ### `allowed_file` (app.py lines 30–33) -/

/-- `ALLOWED_EXTENSIONS = {'png', 'jpg', 'jpeg', 'gif', 'svg'}` -/
def ALLOWED_EXTENSIONS : List String := ["png", "jpg", "jpeg", "gif", "svg"]

/-- The characters after the last `'.'` of the list, `none` when no `'.'`
occurs: this is `filename.rsplit('.', 1)[1]` when `'.' in filename`. -/
def extAfterLastDot : List Char → Option (List Char)
  | [] => none
  | c :: rest =>
    match extAfterLastDot rest with
    | some e => some e
    | none => if c = '.' then some rest else none

/-- `allowed_file(filename)`:
`'.' in filename and filename.rsplit('.', 1)[1].lower() in ALLOWED_EXTENSIONS`.
(Python's short-circuit `and` means the `rsplit` part is only reached when a
dot is present, so the `getD []` default is never the deciding value.) -/
def allowed_file (filename : String) : Bool :=
  filename.data.contains '.' &&
    ALLOWED_EXTENSIONS.contains
      (((extAfterLastDot filename.data).getD []).map Char.toLower).asString

/-! ### Janitor (`cleanup_old_files`, app.py lines 35–49) -/

/-- A directory entry as the cleanup loop sees it: its path, whether
`os.path.isfile` holds, and its `os.path.getmtime` in seconds. -/
structure FsFile where
  name : String
  isFile : Bool
  mtime : ℚ
deriving DecidableEq

/-- `current_time - file_time > timedelta(minutes=1)`, in seconds. -/
def staleCutoffSeconds : ℚ := 60

/-- `time.sleep(30)` between passes of the cleanup loop. -/
def cleanupSleepSeconds : ℕ := 30

/-- The deletion test of one file in a cleanup pass:
`os.path.isfile(filepath)` and
`current_time - file_time > timedelta(minutes=1)`. -/
def fileIsStale (now : ℚ) (f : FsFile) : Bool :=
  f.isFile && decide (now - f.mtime > staleCutoffSeconds)

/-- The files one pass of `cleanup_old_files` removes from a folder listing. -/
def cleanupPassDeleted (now : ℚ) (files : List FsFile) : List FsFile :=
  files.filter (fileIsStale now)

/-- The files one pass of `cleanup_old_files` leaves in a folder listing. -/
def cleanupPassKept (now : ℚ) (files : List FsFile) : List FsFile :=
  files.filter (fun f => ! fileIsStale now f)

/-! ### ReportLab canvas model -/

/-- A ReportLab color as this program builds them: `colors.HexColor(s)` or
`colors.black`. -/
inductive PdfColor where
  | hex (code : String)
  | black
deriving DecidableEq

/-- One canvas call of `create_invoice_pdf`, with its arguments.  `drawImage`
records the image's pixel size `(iw, ih)` and its placement; the emitted PDF
embeds the image content, not the path it was loaded from. -/
inductive DrawOp where
  | setFillColor (c : PdfColor)
  | setStrokeColor (c : PdfColor)
  | setLineWidth (w : ℚ)
  | setFont (font : String) (size : ℚ)
  | rect (x y w h : ℚ) (fill stroke : Bool)
  | roundRect (x y w h radius : ℚ) (fill stroke : Bool)
  | drawPath (pts : List (ℚ × ℚ)) (fill stroke : Bool)
  | drawImage (iw ih x y w h : ℚ)
  | drawString (x y : ℚ) (text : String)
  | drawRightString (x y : ℚ) (text : String)
  | drawCentredString (x y : ℚ) (text : String)
  | line (x1 y1 x2 y2 : ℚ)
deriving DecidableEq

/-- A filesystem side effect of a request. -/
inductive FsEffect where
  | writeFile (path : String)
  | removeFile (path : String)
deriving DecidableEq

/-- Library behaviour outside the repository, fixed for one run of
`create_invoice_pdf`:
* `cairosvgAvailable`: whether the `import cairosvg` at module load succeeded;
* `svgConvertOk`: whether `cairosvg.svg2png` runs without raising and the
  target file exists afterwards;
* `logoExists`: `os.path.exists(logo_path)`;
* `imageSize`: `some (iw, ih)` when `ImageReader`/`getSize`/`drawImage`
  succeed with that size, `none` when one of them raises (caught by the bare
  `except: pass`);
* `hexColorOk`: whether `colors.HexColor` accepts a hex string (the fixed
  literals `"#eeeeee"`, `"#d1d1d1"` are valid and not routed through this);
* `stringWidth`: `c.stringWidth(text, font, size)`;
* `pyFloat`: Python `float(s)`, `none` when it raises;
* `fmtMoney`: the `f"{v:,.0f}"` format. -/
structure Env where
  cairosvgAvailable : Bool
  svgConvertOk : Bool
  logoExists : Bool
  imageSize : Option (ℚ × ℚ)
  hexColorOk : String → Bool
  stringWidth : String → String → ℚ → ℚ
  pyFloat : String → Option ℚ
  fmtMoney : ℚ → String

/-- `reportlab.lib.pagesizes.A4` width: `210 mm · 72 / 25.4`. -/
def pageWidth : ℚ := 75600 / 127

/-- `reportlab.lib.pagesizes.A4` height: `297 mm · 72 / 25.4`. -/
def pageHeight : ℚ := 106920 / 127

/-- `margin_x = 40` -/
def marginX : ℚ := 40

/-- `header_y = height - 110` -/
def headerY : ℚ := pageHeight - 110

/-- `logo_w = 80` -/
def logoW : ℚ := 80

/-- `convert_svg_to_png(svg_path)` (app.py lines 55–64): the converted path
(`None` on failure) and the filesystem effect of a successful conversion.
`now` is `datetime.now().strftime('%Y%m%d%H%M%S%f')`. -/
def convert_svg_to_png (env : Env) (now : String) (svg_path : String) :
    Option String × List FsEffect :=
  let png_path := "uploads/conv_" ++ now ++ ".png"
  if env.cairosvgAvailable then
    if env.svgConvertOk then (some png_path, [.writeFile png_path])
    else (none, [])
  else (none, [])

/-- `logo_path.lower().endswith('.svg')`: the lowercased character list has
`.svg` as a suffix. -/
def endsWithSvg (p : String) : Bool :=
  List.isSuffixOf ".svg".data (p.data.map Char.toLower)

/-- Lines 72–77 of `create_invoice_pdf`: the `final_logo_path` and the
filesystem effects of computing it. -/
def resolveLogo (env : Env) (now : String) (logo_path : Option String) :
    Option String × List FsEffect :=
  match logo_path with
  | some p =>
    if env.logoExists then
      if endsWithSvg p then convert_svg_to_png env now p
      else (some p, [])
    else (none, [])
  | none => (none, [])

/-- `data.get('primary_color', '#f7a80a')` -/
def primaryHexOf (data : FormData) : String := getD data "primary_color" "#f7a80a"

/-- `data.get('secondary_color', '#2d2d2d')` -/
def secondaryHexOf (data : FormData) : String := getD data "secondary_color" "#2d2d2d"

/-- `BG_SECTION = colors.HexColor("#eeeeee")` -/
def BG_SECTION : PdfColor := .hex "#eeeeee"

/-- `BORDER = colors.HexColor("#d1d1d1")` -/
def BORDER : PdfColor := .hex "#d1d1d1"

/-- Section 1, TOP DECORATION (lines 88–101). -/
def topDecorOps (PRIMARY SECONDARY : PdfColor) : List DrawOp :=
  [.setFillColor SECONDARY,
   .rect 0 (pageHeight - 15) (pageWidth * (7/10)) 15 true false,
   .setFillColor PRIMARY,
   .rect (pageWidth * (7/10)) (pageHeight - 15) (pageWidth * (3/10)) 15 true false,
   .drawPath [(pageWidth - 320, pageHeight - 15), (pageWidth, pageHeight - 15),
              (pageWidth, pageHeight - 45), (pageWidth - 260, pageHeight - 45)]
     true false]

/-- Section 2, logo drawing (lines 107–116): the ops issued and `logo_drawn`.
A division by a zero image width raises `ZeroDivisionError`, caught by the
bare `except: pass` like any `ImageReader`/`drawImage` failure. -/
def logoOps (env : Env) (final_logo_path : Option String) : List DrawOp × Bool :=
  match final_logo_path with
  | none => ([], false)
  | some _ =>
    match env.imageSize with
    | none => ([], false)
    | some (iw, ih) =>
      if iw = 0 then ([], false)
      else
        let draw_h := logoW * (ih / iw)
        ([.drawImage iw ih marginX (headerY - draw_h / 2) logoW draw_h], true)

/-- Section 2, company name and details (lines 118–138). -/
def companyHeaderOps (env : Env) (data : FormData) (PRIMARY SECONDARY : PdfColor)
    (logo_drawn : Bool) : List DrawOp :=
  let text_x := if logo_drawn then marginX + logoW + 20 else marginX
  let full_name := (getD data "company_name" "Lancers Tech").trim
  let parts := full_name.splitOn " "
  let first_part := parts.headD ""
  let rest_part := if parts.length > 1 then String.intercalate " " (parts.drop 1) else ""
  [.setFont "Helvetica-Bold" 32,
   .setFillColor PRIMARY,
   .drawString text_x (headerY - 12) first_part]
  ++ (if rest_part ≠ "" then
        [.setFillColor SECONDARY,
         .drawString (text_x + env.stringWidth first_part "Helvetica-Bold" 32 + 12)
           (headerY - 12) rest_part]
      else [])
  ++ [.setFillColor .black,
      .setFont "Helvetica" 9,
      .drawRightString (pageWidth - marginX) (headerY + 15) full_name,
      .drawRightString (pageWidth - marginX) (headerY + 3) (getD data "company_address" ""),
      .drawRightString (pageWidth - marginX) (headerY - 9) (getD data "company_email" "")]

/-- One `(label, val)` pass of the customer-fields loop (lines 157–165),
drawn at height `y`. -/
def customerFieldOps (SECONDARY : PdfColor) (y : ℚ) (label val : String) : List DrawOp :=
  [.setFont "Helvetica-Bold" 8,
   .drawString marginX y label,
   .setFont "Helvetica" 9,
   .drawString (marginX + 90) y val,
   .setLineWidth (1/2),
   .setStrokeColor SECONDARY,
   .line (marginX + 90) (y - 2) (pageWidth - marginX) (y - 2)]

/-- Section 3, CUSTOMER INFORMATION (lines 142–165), starting at `curr_y = y`.
The loop decrements `curr_y` by 20 per field. -/
def customerSectionOps (data : FormData) (SECONDARY : PdfColor) (y : ℚ) : List DrawOp :=
  [.setFillColor BG_SECTION,
   .roundRect marginX y 160 24 4 true false,
   .setFillColor .black,
   .setFont "Helvetica-Bold" 10,
   .drawString (marginX + 10) (y + 7) "CUSTOMER INFORMATION",
   .setFont "Helvetica-Bold" 9]
  ++ customerFieldOps SECONDARY (y - 30) "COMPANY" (getD data "client_name" "")
  ++ customerFieldOps SECONDARY (y - 50) "PHONE NO" (getD data "client_phone" "")
  ++ customerFieldOps SECONDARY (y - 70) "EMAIL" (getD data "client_email" "")

/-- Section 4, ORDER DETAILS heading (lines 169–174), at `curr_y = y`. -/
def orderHeaderOps (y : ℚ) : List DrawOp :=
  [.setFillColor BG_SECTION,
   .roundRect marginX y 120 24 4 true false,
   .setFillColor .black,
   .setFont "Helvetica-Bold" 10,
   .drawString (marginX + 10) (y + 7) "ORDER DETAILS"]

/-- Section 4, table header (lines 176–186), at `curr_y = y`. -/
def tableHeaderOps (y : ℚ) : List DrawOp :=
  [.setStrokeColor BORDER,
   .setFillColor BG_SECTION,
   .rect marginX y (pageWidth - marginX * 2) 35 true true,
   .setFillColor .black,
   .setFont "Helvetica-Bold" 8,
   .drawCentredString 55 (y + 12) "NO.",
   .drawCentredString 230 (y + 12) "ITEM DESCRIPTION",
   .drawCentredString 375 (y + 12) "QTY",
   .drawCentredString 435 (y + 12) "PRICE",
   .drawCentredString 500 (y + 12) "DISCOUNT",
   .drawCentredString 555 (y + 12) "TOTAL"]

/-- `cols_x = [40, 70, 320, 390, 440, 490, 535, 580]` (line 201). -/
def colsX : List ℚ := [40, 70, 320, 390, 440, 490, 535, 580]

/-- The divider rectangles of one table row (lines 201–203):
`for i in range(len(cols_x) - 1): c.rect(cols_x[i], curr_y, cols_x[i+1] - cols_x[i], 30, stroke=1)`. -/
def dividerOps (y : ℚ) : List DrawOp :=
  (colsX.zip colsX.tail).map (fun p => .rect p.1 y (p.2 - p.1) 30 false true)

/-- `f"product_name_{idx}"` -/
def rowKeyName (idx : ℕ) : String := "product_name_" ++ toString idx

/-- `f"product_quantity_{idx}"` -/
def rowKeyQty (idx : ℕ) : String := "product_quantity_" ++ toString idx

/-- `f"product_price_{idx}"` -/
def rowKeyPrice (idx : ℕ) : String := "product_price_" ++ toString idx

/-- `f"product_total_{idx}"` -/
def rowKeyTotal (idx : ℕ) : String := "product_total_" ++ toString idx

/-- `.replace('$', '').replace(',', '').strip()` applied to a raw total. -/
def cleanTotal (s : String) : String := ((s.replace "$" "").replace "," "").trim

/-- The canvas calls of one non-empty table row (lines 200–210). -/
def rowOps (idx : ℕ) (y : ℚ) (name qty price total_raw : String) : List DrawOp :=
  dividerOps y ++
  [.drawCentredString 55 (y + 10) (toString (idx + 1)),
   .drawString 75 (y + 10) name,
   .drawCentredString 415 (y + 10) qty,
   .drawCentredString 465 (y + 10) (price ++ " PKR"),
   .drawCentredString 512 (y + 10) "0 PKR",
   .drawCentredString 557 (y + 10) (total_raw ++ " PKR")]

/-- The table-row `while` loop (lines 191–216), with explicit fuel: result is
`(ops, subtotal, final curr_y)`.  `create_invoice_pdf` runs it with fuel
`data.length + 1`; `renderRows_eq_rowsSpec` below shows any fuel beyond the
first missing `product_name_{idx}` key gives the same result, so the fuel is
only a termination device for the unbounded Python loop. -/
def renderRows (env : Env) (data : FormData) : ℕ → ℕ → ℚ → List DrawOp × ℚ × ℚ
  | 0, _, y => ([], 0, y)
  | fuel + 1, idx, y =>
    if hasKey data (rowKeyName idx) then
      let name := (getD data (rowKeyName idx) "").trim
      if name = "" then renderRows env data fuel (idx + 1) y
      else
        let qty := getD data (rowKeyQty idx) "0"
        let price := getD data (rowKeyPrice idx) "0"
        let total_raw := cleanTotal (getD data (rowKeyTotal idx) "0")
        let rest := renderRows env data fuel (idx + 1) (y - 30)
        (rowOps idx y name qty price total_raw ++ rest.1,
         (env.pyFloat total_raw).getD 0 + rest.2.1,
         rest.2.2)
    else ([], 0, y)

/-- Totals table (lines 218–240), with `curr_y = y` at the GST row:
`total_w = 110`, `start_x = width - margin_x - total_w`, and the two money
cells `f"{subtotal * 0.05:,.0f} PKR"` and `f"{subtotal * 1.05:,.0f} PKR"`. -/
def totalsOps (env : Env) (subtotal : ℚ) (y : ℚ) : List DrawOp :=
  let start_x := pageWidth - marginX - 110
  [.setFillColor BG_SECTION,
   .rect start_x y 55 25 true true,
   .rect (start_x + 55) y 55 25 true true,
   .setFillColor .black,
   .setFont "Helvetica-Bold" 7,
   .drawString (start_x + 5) (y + 8) "GST TAX 5%",
   .drawRightString (pageWidth - marginX - 5) (y + 8)
     (env.fmtMoney (subtotal * (5/100)) ++ " PKR"),
   .setFillColor BG_SECTION,
   .rect start_x (y - 25) 55 25 true true,
   .rect (start_x + 55) (y - 25) 55 25 true true,
   .setFillColor .black,
   .setFont "Helvetica-Bold" 9,
   .drawString (start_x + 10) (y - 25 + 8) "TOTAL",
   .drawRightString (pageWidth - marginX - 5) (y - 25 + 8)
     (env.fmtMoney (subtotal * (105/100)) ++ " PKR")]

/-- Section 5, DELIVERY DETAILS and signature (lines 242–267), with
`curr_y = y` at the heading, and section 6, FOOTER (lines 269–275). -/
def deliveryAndFooterOps (data : FormData) (SECONDARY : PdfColor) (y : ℚ) : List DrawOp :=
  [.setFillColor BG_SECTION,
   .roundRect marginX y 110 24 4 true false,
   .setFillColor .black,
   .setFont "Helvetica-Bold" 9,
   .drawString (marginX + 10) (y + 7) "DELIVERY DETAILS",
   .setStrokeColor SECONDARY,
   .rect marginX (y - 45) 180 20 false true,
   .rect marginX (y - 45 - 20) 180 20 false true,
   .line (marginX + 80) (y - 45 - 20) (marginX + 80) (y - 45 + 20),
   .setFont "Helvetica-Bold" 8,
   .drawString (marginX + 5) (y - 45 + 6) "METHOD",
   .drawString (marginX + 5) (y - 45 - 14) "DATE",
   .setFont "Helvetica" 8,
   .drawString (marginX + 85) (y - 45 + 6) "ON-CAMPUS TRAINING",
   .drawString (marginX + 85) (y - 45 - 14) (getD data "invoice_date" ""),
   .setFont "Helvetica-Bold" 10,
   .drawCentredString (pageWidth - marginX - 100) (y - 45)
     (getD data "contact_person" "CH.Shahrukh Farooq"),
   .drawCentredString (pageWidth - marginX - 100) (y - 45 - 15) "C.E.O",
   .setLineWidth (1/5),
   .setStrokeColor SECONDARY,
   .line marginX 45 (pageWidth - marginX) 45,
   .setFont "Helvetica" 8,
   .drawCentredString (pageWidth / 2) 30
     ("📧 " ++ getD data "company_email" "" ++ "    |    🌐 www.lancerstech.com")]

/-- What one run of `create_invoice_pdf` produces: the canvas calls (the PDF
content), the filesystem effects, the `logo_drawn` flag, and the computed
`subtotal`. -/
structure RenderResult where
  ops : List DrawOp
  effects : List FsEffect
  logoDrawn : Bool
  subtotal : ℚ
deriving DecidableEq

/-- The body of `create_invoice_pdf` after the theme colors were accepted:
assembles the canvas calls in source order and the effect list
(the `c.save()` write of `output_filename`, preceded by a successful SVG
conversion's write and followed by the line-278 removal of the converted
logo). -/
def renderBody (env : Env) (data : FormData) (logo_path final_logo_path : Option String)
    (output_filename : String) (convEffects : List FsEffect) : RenderResult :=
  let PRIMARY := PdfColor.hex (primaryHexOf data)
  let SECONDARY := PdfColor.hex (secondaryHexOf data)
  let lr := logoOps env final_logo_path
  let cy := headerY - 65
  let oy := cy - 90 - 25
  let ty := oy - 35
  let rows := renderRows env data (data.length + 1) 0 (ty - 30)
  let gy := rows.2.2 - 10
  let removeConv : List FsEffect :=
    match logo_path with
    | some p =>
      if endsWithSvg p && final_logo_path.isSome then
        [.removeFile (final_logo_path.getD "")]
      else []
    | none => []
  { ops :=
      topDecorOps PRIMARY SECONDARY
      ++ lr.1
      ++ companyHeaderOps env data PRIMARY SECONDARY lr.2
      ++ customerSectionOps data SECONDARY cy
      ++ orderHeaderOps oy
      ++ tableHeaderOps ty
      ++ [.setFont "Helvetica" 8]
      ++ rows.1
      ++ totalsOps env rows.2.1 gy
      ++ deliveryAndFooterOps data SECONDARY (gy - 25 - 50),
    effects := convEffects ++ [.writeFile output_filename] ++ removeConv,
    logoDrawn := lr.2,
    subtotal := rows.2.1 }

/-- `create_invoice_pdf(data, logo_path, output_filename)` (lines 66–280).
An invalid user hex color makes `colors.HexColor` raise (lines 82–83); the
exception propagates to the caller carrying the filesystem effects already
performed (a converted logo is then never removed -- line 278 is not
reached). -/
def create_invoice_pdf (env : Env) (now : String) (data : FormData)
    (logo_path : Option String) (output_filename : String) :
    Except (List FsEffect) RenderResult :=
  let conv := resolveLogo env now logo_path
  if env.hexColorOk (primaryHexOf data) && env.hexColorOk (secondaryHexOf data) then
    .ok (renderBody env data logo_path conv.1 output_filename conv.2)
  else
    .error conv.2

/-! ### The `/generate-invoice` handler (app.py lines 286–310) -/

/-- `request.files['logo']`: a werkzeug `FileStorage`.  Its truthiness
(`if file and ...`) is `bool(file.filename)`, i.e. a non-empty filename. -/
structure UploadedFile where
  filename : String
deriving DecidableEq

/-- One POST to `/generate-invoice`: `logoFile` is `request.files['logo']`
when `'logo' in request.files`, and `form` is `request.form.to_dict()`. -/
structure HRequest where
  logoFile : Option UploadedFile
  form : FormData

/-- The handler's run environment: the render environment, the two
timestamps drawn from `datetime.now()` (`now` inside a possible SVG
conversion, `timestamp` for the output name), werkzeug's `secure_filename`,
and whether `file.save` and `send_file` run without raising. -/
structure HEnv where
  renv : Env
  now : String
  timestamp : String
  secureFilename : String → String
  saveOk : Bool
  sendOk : Bool

/-- What the handler returns to Flask: `send_file(output_file,
as_attachment=True, download_name='invoice.pdf')`, or
`jsonify({'error': str(e)}), 500`. -/
inductive HOutcome where
  | pdfAttachment (path downloadName : String)
  | errorJson (body : List (String × String)) (status : ℕ)
deriving DecidableEq

/-- A finished request: the response, the filesystem effects in order, the
path the uploaded logo was saved to (if any), and the render result when
`create_invoice_pdf` returned (exposed so properties of the generated
document can be stated about the request). -/
structure HResult where
  outcome : HOutcome
  effects : List FsEffect
  savedLogo : Option String
  rendered : Option RenderResult

/-- Lines 290–296: validate and save the uploaded logo.  `.error` is a raise
of `file.save` (the `logo_path` assignment on line 296 is then never
reached). -/
def stageLogo (henv : HEnv) (req : HRequest) : Except Unit (Option String × List FsEffect) :=
  match req.logoFile with
  | some f =>
    if f.filename ≠ "" && allowed_file f.filename then
      let save_path := "uploads/" ++ henv.secureFilename f.filename
      if henv.saveOk then .ok (some save_path, [.writeFile save_path])
      else .error ()
    else .ok (none, [])
  | none => .ok (none, [])

/-- `generate_invoice()` (lines 286–310).  Every exception of the `try` body
lands in the `except` branch as a `jsonify({'error': str(e)}), 500` response
(the model does not track the exception text, only that the body is a
one-key `error` object); the `finally` block removes the saved logo, if any,
as the last effect of the request. -/
def generate_invoice (henv : HEnv) (req : HRequest) : HResult :=
  match stageLogo henv req with
  | .error _ =>
    { outcome := .errorJson [("error", "file save failed")] 500,
      effects := [], savedLogo := none, rendered := none }
  | .ok (logo_path, saveEffects) =>
    let output_file := "output/inv_" ++ henv.timestamp ++ ".pdf"
    let finallyEffects : List FsEffect :=
      match logo_path with
      | some p => [.removeFile p]
      | none => []
    match create_invoice_pdf henv.renv henv.now req.form logo_path output_file with
    | .error effs =>
      { outcome := .errorJson [("error", "invoice generation failed")] 500,
        effects := saveEffects ++ effs ++ finallyEffects,
        savedLogo := logo_path, rendered := none }
    | .ok r =>
      if henv.sendOk then
        { outcome := .pdfAttachment output_file "invoice.pdf",
          effects := saveEffects ++ r.effects ++ finallyEffects,
          savedLogo := logo_path, rendered := some r }
      else
        { outcome := .errorJson [("error", "send file failed")] 500,
          effects := saveEffects ++ r.effects ++ finallyEffects,
          savedLogo := logo_path, rendered := some r }

/-! ### Spec-side definitions (the claims' own wording, to be compared with
the source-side definitions above) -/

/-- Claim C3's description of `allowed_file`: the filename contains a `'.'`
and the substring after its last `'.'`, lowercased, is one of the allowed
extensions. -/
def allowedFileSpec (filename : String) : Prop :=
  filename.data.contains '.' = true ∧
  ∃ pre suf : List Char,
    filename.data = pre ++ '.' :: suf ∧ '.' ∉ suf ∧
    ((suf.map Char.toLower).asString ∈ ALLOWED_EXTENSIONS)

/-- Claim C9's description of the row loop: run over exactly the indices
`idx, idx+1, …, idx+n-1` (with `idx+n` the first index whose
`product_name` key is absent), skipping rows whose stripped name is empty
without stopping, rendering every other row, and adding the parsed total
(or `0` when parsing fails) to the subtotal. -/
def rowsSpec (env : Env) (data : FormData) : ℕ → ℕ → ℚ → List DrawOp × ℚ × ℚ
  | 0, _, y => ([], 0, y)
  | n + 1, idx, y =>
    let name := (getD data (rowKeyName idx) "").trim
    if name = "" then rowsSpec env data n (idx + 1) y
    else
      let qty := getD data (rowKeyQty idx) "0"
      let price := getD data (rowKeyPrice idx) "0"
      let total_raw := cleanTotal (getD data (rowKeyTotal idx) "0")
      let rest := rowsSpec env data n (idx + 1) (y - 30)
      (rowOps idx y name qty price total_raw ++ rest.1,
       (env.pyFloat total_raw).getD 0 + rest.2.1,
       rest.2.2)

/-- What row `i` contributes to the subtotal: `0` for a skipped (empty-name)
row, otherwise the float-parsed cleaned `product_total_i` with parse
failures counting `0`. -/
def rowContrib (env : Env) (data : FormData) (i : ℕ) : ℚ :=
  if (getD data (rowKeyName i) "").trim = "" then 0
  else (env.pyFloat (cleanTotal (getD data (rowKeyTotal i) "0"))).getD 0

/-- Claims C1/C9's subtotal: the sum of the row contributions of the visited
indices `0, …, n-1`. -/
def subtotalSpec (env : Env) (data : FormData) (n : ℕ) : ℚ :=
  ((List.range n).map (rowContrib env data)).sum

/-- `true` exactly on `drawImage` canvas calls. -/
def isDrawImage : DrawOp → Bool
  | .drawImage _ _ _ _ _ _ => true
  | _ => false

/-! ### Lemmas about `allowed_file` -/

theorem extAfterLastDot_isSome (l : List Char) :
    (extAfterLastDot l).isSome = l.contains '.' := by
  induction l with
  | nil => rfl
  | cons c rest ih =>
    rw [List.contains_cons, ← ih]
    simp only [extAfterLastDot]
    cases h : extAfterLastDot rest with
    | some e => simp
    | none =>
      by_cases hc : c = '.'
      · simp [hc]
      · have : ('.' == c) = false := beq_eq_false_iff_ne.mpr (Ne.symm hc)
        simp [hc, this]

theorem extAfterLastDot_none (l : List Char) (h : '.' ∉ l) :
    extAfterLastDot l = none := by
  have hs := extAfterLastDot_isSome l
  cases he : extAfterLastDot l with
  | none => rfl
  | some e =>
    rw [he] at hs
    simp only [Option.isSome_some] at hs
    exact absurd (List.elem_iff.mp hs.symm) h

theorem extAfterLastDot_of_append (pre suf : List Char) (hnd : '.' ∉ suf) :
    extAfterLastDot (pre ++ '.' :: suf) = some suf := by
  induction pre with
  | nil => simp [extAfterLastDot, extAfterLastDot_none suf hnd]
  | cons c pre ih => simp [extAfterLastDot, List.append_eq, ih]

theorem extAfterLastDot_eq_some (l suf : List Char) (h : extAfterLastDot l = some suf) :
    ∃ pre, l = pre ++ '.' :: suf ∧ '.' ∉ suf := by
  induction l generalizing suf with
  | nil => simp [extAfterLastDot] at h
  | cons c rest ih =>
    simp only [extAfterLastDot] at h
    cases hr : extAfterLastDot rest with
    | some e =>
      rw [hr] at h
      simp only [Option.some.injEq] at h
      obtain rfl := h
      obtain ⟨pre, hpre, hnd⟩ := ih e hr
      exact ⟨c :: pre, by simp [hpre], hnd⟩
    | none =>
      rw [hr] at h
      by_cases hc : c = '.'
      · rw [if_pos hc] at h
        simp only [Option.some.injEq] at h
        obtain rfl := h
        refine ⟨[], by simp [hc], ?_⟩
        intro hmem
        have hs := extAfterLastDot_isSome rest
        rw [hr] at hs
        simp only [Option.isSome_none] at hs
        exact Bool.false_ne_true (hs.trans (List.elem_iff.mpr hmem))
      · rw [if_neg hc] at h
        simp at h

/-! ### Row-loop lemmas -/

/-- With enough fuel, the fueled `while` loop equals the spec-side recursion
over exactly the `n` indices before the first missing `product_name` key. -/
theorem renderRows_eq_rowsSpec (env : Env) (data : FormData) :
    ∀ (n idx : ℕ) (y : ℚ) (fuel : ℕ), n < fuel →
    (∀ i, i < n → hasKey data (rowKeyName (idx + i)) = true) →
    hasKey data (rowKeyName (idx + n)) = false →
    renderRows env data fuel idx y = rowsSpec env data n idx y := by
  intro n
  induction n with
  | zero =>
    intro idx y fuel hf hpres hstop
    obtain ⟨f, rfl⟩ : ∃ f, fuel = f + 1 := ⟨fuel - 1, by omega⟩
    rw [Nat.add_zero] at hstop
    rw [renderRows, rowsSpec, hstop]
    simp
  | succ n ih =>
    intro idx y fuel hf hpres hstop
    obtain ⟨f, rfl⟩ : ∃ f, fuel = f + 1 := ⟨fuel - 1, by omega⟩
    have hk : hasKey data (rowKeyName idx) = true := by
      have := hpres 0 (Nat.succ_pos n)
      rwa [Nat.add_zero] at this
    have hpres' : ∀ i, i < n → hasKey data (rowKeyName (idx + 1 + i)) = true := by
      intro i hi
      have := hpres (i + 1) (by omega)
      rwa [show idx + (i + 1) = idx + 1 + i by omega] at this
    have hstop' : hasKey data (rowKeyName (idx + 1 + n)) = false := by
      rwa [show idx + (n + 1) = idx + 1 + n by omega] at hstop
    rw [renderRows, rowsSpec, hk]
    simp only [if_true]
    by_cases hname : (getD data (rowKeyName idx) "").trim = ""
    · rw [if_pos hname, if_pos hname]
      exact ih (idx + 1) y f (by omega) hpres' hstop'
    · rw [if_neg hname, if_neg hname,
          ih (idx + 1) (y - 30) f (by omega) hpres' hstop']

/-- The subtotal the spec-side recursion computes is the sum of the row
contributions of the visited indices. -/
theorem rowsSpec_subtotal (env : Env) (data : FormData) :
    ∀ (n idx : ℕ) (y : ℚ),
    (rowsSpec env data n idx y).2.1 =
      ((List.range n).map (fun i => rowContrib env data (idx + i))).sum := by
  intro n
  induction n with
  | zero => intro idx y; simp [rowsSpec]
  | succ n ih =>
    intro idx y
    rw [List.range_succ_eq_map]
    simp only [List.map_cons, List.map_map, List.sum_cons]
    have hcomp : ((fun i => rowContrib env data (idx + i)) ∘ Nat.succ)
        = fun i => rowContrib env data (idx + 1 + i) := by
      funext i
      show rowContrib env data (idx + (i + 1)) = rowContrib env data (idx + 1 + i)
      rw [show idx + (i + 1) = idx + 1 + i by omega]
    rw [rowsSpec]
    by_cases hname : (getD data (rowKeyName idx) "").trim = ""
    · have hc0 : rowContrib env data idx = 0 := by rw [rowContrib, if_pos hname]
      rw [if_pos hname, ih (idx + 1) y, hcomp]
      simp only [Nat.add_zero]
      rw [hc0, zero_add]
    · have hc1 : rowContrib env data idx
          = (env.pyFloat (cleanTotal (getD data (rowKeyTotal idx) "0"))).getD 0 := by
        rw [rowContrib, if_neg hname]
      rw [if_neg hname]
      simp only
      rw [ih (idx + 1) (y - 30), hcomp]
      simp only [Nat.add_zero]
      rw [hc1]

/-- The `curr_y` at which the first table row is drawn:
`header_y - 65 - 90 - 25 - 35 - 30`. -/
def rowsStartY : ℚ := headerY - 65 - 90 - 25 - 35 - 30

/-- The `curr_y` of the GST row: 10 below where the row loop stopped. -/
def gstY (env : Env) (data : FormData) : ℚ :=
  (renderRows env data (data.length + 1) 0 rowsStartY).2.2 - 10

theorem renderBody_subtotal (env : Env) (data : FormData) (lp fl : Option String)
    (out : String) (ce : List FsEffect) :
    (renderBody env data lp fl out ce).subtotal
      = (renderRows env data (data.length + 1) 0 rowsStartY).2.1 := rfl

theorem mem_renderBody_ops_of_mem_totals (env : Env) (data : FormData)
    (lp fl : Option String) (out : String) (ce : List FsEffect) (op : DrawOp)
    (h : op ∈ totalsOps env (renderBody env data lp fl out ce).subtotal (gstY env data)) :
    op ∈ (renderBody env data lp fl out ce).ops := by
  rw [renderBody_subtotal] at h
  show op ∈
    topDecorOps (PdfColor.hex (primaryHexOf data)) (PdfColor.hex (secondaryHexOf data))
    ++ (logoOps env fl).1
    ++ companyHeaderOps env data (PdfColor.hex (primaryHexOf data))
        (PdfColor.hex (secondaryHexOf data)) (logoOps env fl).2
    ++ customerSectionOps data (PdfColor.hex (secondaryHexOf data)) (headerY - 65)
    ++ orderHeaderOps (headerY - 65 - 90 - 25)
    ++ tableHeaderOps (headerY - 65 - 90 - 25 - 35)
    ++ [.setFont "Helvetica" 8]
    ++ (renderRows env data (data.length + 1) 0 rowsStartY).1
    ++ totalsOps env (renderRows env data (data.length + 1) 0 rowsStartY).2.1
        (gstY env data)
    ++ deliveryAndFooterOps data (PdfColor.hex (secondaryHexOf data))
        (gstY env data - 25 - 50)
  simp only [List.mem_append]
  exact Or.inl (Or.inr h)

/-! ### Handler lemmas -/

theorem generate_invoice_savedLogo (henv : HEnv) (req : HRequest) :
    (generate_invoice henv req).savedLogo =
      match stageLogo henv req with
      | .error _ => none
      | .ok (lp, _) => lp := by
  unfold generate_invoice
  cases hst : stageLogo henv req with
  | error e => simp
  | ok v =>
    obtain ⟨lp, se⟩ := v
    cases hcr : create_invoice_pdf henv.renv henv.now req.form lp
        ("output/inv_" ++ henv.timestamp ++ ".pdf") with
    | error effs => simp [hcr]
    | ok r => by_cases hs : henv.sendOk <;> simp [hcr, hs]

theorem stageLogo_some (henv : HEnv) (req : HRequest) (lp : String) (se : List FsEffect)
    (h : stageLogo henv req = .ok (some lp, se)) :
    ∃ f, req.logoFile = some f ∧ allowed_file f.filename = true ∧
      lp = "uploads/" ++ henv.secureFilename f.filename := by
  unfold stageLogo at h
  cases hl : req.logoFile with
  | none => rw [hl] at h; simp at h
  | some f =>
    rw [hl] at h
    dsimp only at h
    refine ⟨f, rfl, ?_⟩
    split at h
    · next hcond =>
      split at h
      · simp only [Except.ok.injEq, Prod.mk.injEq, Option.some.injEq] at h
        exact ⟨(Bool.and_eq_true _ _ |>.mp hcond).2, h.1.symm⟩
      · simp at h
    · simp at h

/-! ### Claim theorems -/

/-- **C3.** `allowed_file(filename)` holds exactly when the filename contains
a `'.'` and the substring after its last `'.'`, lowercased, is one of
`png`, `jpg`, `jpeg`, `gif`, `svg`; and the `/generate-invoice` handler
saves an uploaded logo into the upload directory only when `allowed_file`
holds of its filename. -/
theorem claim_C3_allowed_file :
    (∀ filename : String, allowed_file filename = true ↔ allowedFileSpec filename) ∧
    (∀ (henv : HEnv) (req : HRequest) (p : String),
      (generate_invoice henv req).savedLogo = some p →
      ∃ f, req.logoFile = some f ∧ allowed_file f.filename = true ∧
        p = "uploads/" ++ henv.secureFilename f.filename) := by
  constructor
  · intro filename
    constructor
    · intro h
      rw [allowed_file, Bool.and_eq_true] at h
      obtain ⟨hdot, hmem⟩ := h
      have hsome : (extAfterLastDot filename.data).isSome = true := by
        rw [extAfterLastDot_isSome]; exact hdot
      obtain ⟨suf, hsuf⟩ := Option.isSome_iff_exists.mp hsome
      obtain ⟨pre, hdec, hnd⟩ := extAfterLastDot_eq_some _ suf hsuf
      refine ⟨hdot, pre, suf, hdec, hnd, ?_⟩
      rw [hsuf] at hmem
      simp only [Option.getD_some] at hmem
      exact List.elem_iff.mp hmem
    · rintro ⟨hdot, pre, suf, hdec, hnd, hmem⟩
      rw [allowed_file, Bool.and_eq_true]
      refine ⟨hdot, ?_⟩
      rw [hdec, extAfterLastDot_of_append pre suf hnd]
      simp only [Option.getD_some]
      exact List.elem_iff.mpr hmem
  · intro henv req p hsaved
    rw [generate_invoice_savedLogo] at hsaved
    cases hst : stageLogo henv req with
    | error e => rw [hst] at hsaved; simp at hsaved
    | ok v =>
      obtain ⟨lp, se⟩ := v
      rw [hst] at hsaved
      simp only at hsaved
      subst hsaved
      exact stageLogo_some henv req p se hst

/-- **C5.** In a pass of the cleanup loop, a listed file is deleted iff it
is a regular file whose modification time is more than one minute (60
seconds) before the current time; every other listed file is kept; and the
loop sleeps 30 seconds between passes. -/
theorem claim_C5_cleanup (now : ℚ) (files : List FsFile) (f : FsFile) :
    (f ∈ cleanupPassDeleted now files ↔
      f ∈ files ∧ f.isFile = true ∧ now - f.mtime > 60) ∧
    (f ∈ cleanupPassKept now files ↔
      f ∈ files ∧ ¬(f.isFile = true ∧ now - f.mtime > 60)) ∧
    cleanupSleepSeconds = 30 := by
  refine ⟨?_, ?_, rfl⟩
  · rw [cleanupPassDeleted, List.mem_filter]
    constructor
    · rintro ⟨hm, hb⟩
      rw [fileIsStale, Bool.and_eq_true, staleCutoffSeconds] at hb
      exact ⟨hm, hb.1, of_decide_eq_true hb.2⟩
    · rintro ⟨hm, hf, hgt⟩
      refine ⟨hm, ?_⟩
      rw [fileIsStale, Bool.and_eq_true, staleCutoffSeconds]
      exact ⟨hf, decide_eq_true hgt⟩
  · rw [cleanupPassKept, List.mem_filter]
    constructor
    · rintro ⟨hm, hb⟩
      refine ⟨hm, ?_⟩
      rintro ⟨hf, hgt⟩
      rw [fileIsStale, hf, staleCutoffSeconds] at hb
      simp [hgt] at hb
    · rintro ⟨hm, hn⟩
      refine ⟨hm, ?_⟩
      rw [fileIsStale, staleCutoffSeconds]
      cases hf : f.isFile
      · simp
      · simp only [Bool.true_and, Bool.not_eq_true']
        exact decide_eq_false (fun hgt => hn ⟨hf, hgt⟩)

/-- **C2.** Every request to `/generate-invoice` ends in one of exactly two
ways: the generated PDF as an attachment named `invoice.pdf`, or a JSON
body with an `error` key and HTTP status 500. -/
theorem claim_C2_outcome_dichotomy (henv : HEnv) (req : HRequest) :
    (∃ p, (generate_invoice henv req).outcome = .pdfAttachment p "invoice.pdf") ∨
    (∃ m, (generate_invoice henv req).outcome = .errorJson [("error", m)] 500) := by
  unfold generate_invoice
  cases hst : stageLogo henv req with
  | error e => exact Or.inr ⟨"file save failed", rfl⟩
  | ok v =>
    obtain ⟨lp, se⟩ := v
    cases hcr : create_invoice_pdf henv.renv henv.now req.form lp
        ("output/inv_" ++ henv.timestamp ++ ".pdf") with
    | error effs =>
      simp only [hcr]
      exact Or.inr ⟨"invoice generation failed", rfl⟩
    | ok r =>
      by_cases hs : henv.sendOk
      · simp only [hcr, if_pos hs]
        exact Or.inl ⟨"output/inv_" ++ henv.timestamp ++ ".pdf", rfl⟩
      · simp only [hcr, if_neg hs]
        exact Or.inr ⟨"send file failed", rfl⟩

/-- **C9.** The row loop visits indices `0, 1, 2, …` and stops at the first
index whose `product_name_{idx}` key is absent (items after a gap are never
rendered or summed); a row whose name strips to empty is skipped without
stopping the loop; a row whose total fails float parsing is still rendered
and contributes `0` to the subtotal.  All of this is the content of
`rowsSpec`/`rowContrib`, which the fueled source loop provably equals. -/
theorem claim_C9_row_loop (env : Env) (data : FormData) (n fuel : ℕ) (y : ℚ)
    (hpres : ∀ i, i < n → hasKey data (rowKeyName i) = true)
    (hstop : hasKey data (rowKeyName n) = false)
    (hfuel : n < fuel) :
    renderRows env data fuel 0 y = rowsSpec env data n 0 y ∧
    (renderRows env data fuel 0 y).2.1 = subtotalSpec env data n := by
  have h1 := renderRows_eq_rowsSpec env data n 0 y fuel hfuel
    (by intro i hi; rw [Nat.zero_add]; exact hpres i hi)
    (by rw [Nat.zero_add]; exact hstop)
  refine ⟨h1, ?_⟩
  rw [h1, rowsSpec_subtotal, subtotalSpec]
  simp

/-- **C1.** For every form mapping (under the stopping index of its row
keys), `create_invoice_pdf` computes the subtotal as the sum of the
float-parsed `product_total_i` values of the processed line items, renders
the GST tax cell as `subtotal * 0.05` and the TOTAL cell as
`subtotal * 1.05`, each formatted by the money format and suffixed
`" PKR"`. -/
theorem claim_C1_subtotal_and_tax (env : Env) (now : String) (data : FormData)
    (logo : Option String) (out : String) (n : ℕ)
    (hpres : ∀ i, i < n → hasKey data (rowKeyName i) = true)
    (hstop : hasKey data (rowKeyName n) = false)
    (hlen : n ≤ data.length)
    (hp : env.hexColorOk (primaryHexOf data) = true)
    (hs : env.hexColorOk (secondaryHexOf data) = true) :
    ∃ r, create_invoice_pdf env now data logo out = Except.ok r ∧
      r.subtotal = subtotalSpec env data n ∧
      (∃ y, DrawOp.drawRightString (pageWidth - marginX - 5) y
        (env.fmtMoney (r.subtotal * (5/100)) ++ " PKR") ∈ r.ops) ∧
      (∃ y, DrawOp.drawRightString (pageWidth - marginX - 5) y
        (env.fmtMoney (r.subtotal * (105/100)) ++ " PKR") ∈ r.ops) := by
  refine ⟨renderBody env data logo (resolveLogo env now logo).1 out (resolveLogo env now logo).2,
    ?_, ?_, ?_, ?_⟩
  · rw [create_invoice_pdf]
    simp only [hp, hs, Bool.and_self, if_true]
  · rw [renderBody_subtotal,
      renderRows_eq_rowsSpec env data n 0 rowsStartY (data.length + 1) (by omega)
        (by intro i hi; rw [Nat.zero_add]; exact hpres i hi)
        (by rw [Nat.zero_add]; exact hstop),
      rowsSpec_subtotal, subtotalSpec]
    simp
  · refine ⟨gstY env data + 8, ?_⟩
    apply mem_renderBody_ops_of_mem_totals
    rw [totalsOps]
    simp
  · refine ⟨gstY env data - 25 + 8, ?_⟩
    apply mem_renderBody_ops_of_mem_totals
    rw [totalsOps]
    simp

/-! ### No-logo lemmas (claim C4) -/

/-- No operation of the list is a `drawImage`. -/
def NoImage (l : List DrawOp) : Prop := ∀ op ∈ l, isDrawImage op = false

theorem noImage_append {a b : List DrawOp} (ha : NoImage a) (hb : NoImage b) :
    NoImage (a ++ b) := by
  intro op hop
  rcases List.mem_append.mp hop with h | h
  exacts [ha op h, hb op h]

theorem noImage_topDecorOps (P S : PdfColor) : NoImage (topDecorOps P S) := by
  intro op hop
  simp only [topDecorOps, List.mem_cons, List.not_mem_nil, or_false] at hop
  rcases hop with rfl | rfl | rfl | rfl | rfl <;> rfl

theorem noImage_ite (c : Prop) [Decidable c] (a b : List DrawOp)
    (ha : NoImage a) (hb : NoImage b) : NoImage (if c then a else b) := by
  split
  exacts [ha, hb]

theorem noImage_companyHeaderOps (env : Env) (data : FormData) (P S : PdfColor)
    (b : Bool) : NoImage (companyHeaderOps env data P S b) := by
  rw [companyHeaderOps]
  apply noImage_append
  apply noImage_append
  · intro op hop
    simp only [List.mem_cons, List.not_mem_nil, or_false] at hop
    rcases hop with rfl | rfl | rfl <;> rfl
  · apply noImage_ite
    · intro op hop
      simp only [List.mem_cons, List.not_mem_nil, or_false] at hop
      rcases hop with rfl | rfl <;> rfl
    · intro op hop
      exact absurd hop (List.not_mem_nil op)
  · intro op hop
    simp only [List.mem_cons, List.not_mem_nil, or_false] at hop
    rcases hop with rfl | rfl | rfl | rfl | rfl <;> rfl

theorem noImage_customerFieldOps (S : PdfColor) (y : ℚ) (label val : String) :
    NoImage (customerFieldOps S y label val) := by
  intro op hop
  simp only [customerFieldOps, List.mem_cons, List.not_mem_nil, or_false] at hop
  rcases hop with rfl | rfl | rfl | rfl | rfl | rfl | rfl <;> rfl

theorem noImage_customerSectionOps (data : FormData) (S : PdfColor) (y : ℚ) :
    NoImage (customerSectionOps data S y) := by
  rw [customerSectionOps]
  apply noImage_append
  apply noImage_append
  apply noImage_append
  · intro op hop
    simp only [List.mem_cons, List.not_mem_nil, or_false] at hop
    rcases hop with rfl | rfl | rfl | rfl | rfl | rfl <;> rfl
  all_goals apply noImage_customerFieldOps

theorem noImage_orderHeaderOps (y : ℚ) : NoImage (orderHeaderOps y) := by
  intro op hop
  simp only [orderHeaderOps, List.mem_cons, List.not_mem_nil, or_false] at hop
  rcases hop with rfl | rfl | rfl | rfl | rfl <;> rfl

theorem noImage_tableHeaderOps (y : ℚ) : NoImage (tableHeaderOps y) := by
  intro op hop
  simp only [tableHeaderOps, List.mem_cons, List.not_mem_nil, or_false] at hop
  rcases hop with rfl | rfl | rfl | rfl | rfl | rfl | rfl | rfl | rfl | rfl | rfl <;> rfl

theorem noImage_dividerOps (y : ℚ) : NoImage (dividerOps y) := by
  intro op hop
  rw [dividerOps] at hop
  obtain ⟨p, _, rfl⟩ := List.mem_map.mp hop
  rfl

theorem noImage_rowOps (idx : ℕ) (y : ℚ) (name qty price total_raw : String) :
    NoImage (rowOps idx y name qty price total_raw) := by
  rw [rowOps]
  apply noImage_append (noImage_dividerOps y)
  intro op hop
  simp only [List.mem_cons, List.not_mem_nil, or_false] at hop
  rcases hop with rfl | rfl | rfl | rfl | rfl | rfl <;> rfl

theorem noImage_renderRows (env : Env) (data : FormData) :
    ∀ (fuel idx : ℕ) (y : ℚ), NoImage (renderRows env data fuel idx y).1 := by
  intro fuel
  induction fuel with
  | zero => intro idx y op hop; simp [renderRows] at hop
  | succ f ih =>
    intro idx y
    rw [renderRows]
    by_cases hk : hasKey data (rowKeyName idx)
    · rw [if_pos hk]
      by_cases hname : (getD data (rowKeyName idx) "").trim = ""
      · rw [if_pos hname]
        exact ih (idx + 1) y
      · rw [if_neg hname]
        exact noImage_append (noImage_rowOps _ _ _ _ _ _) (ih (idx + 1) (y - 30))
    · rw [if_neg hk]
      intro op hop
      simp at hop

theorem noImage_totalsOps (env : Env) (s y : ℚ) : NoImage (totalsOps env s y) := by
  intro op hop
  simp only [totalsOps, List.mem_cons, List.not_mem_nil, or_false] at hop
  rcases hop with rfl | rfl | rfl | rfl | rfl | rfl | rfl | rfl | rfl | rfl | rfl | rfl | rfl | rfl <;> rfl

theorem noImage_deliveryAndFooterOps (data : FormData) (S : PdfColor) (y : ℚ) :
    NoImage (deliveryAndFooterOps data S y) := by
  intro op hop
  simp only [deliveryAndFooterOps, List.mem_cons, List.not_mem_nil, or_false] at hop
  rcases hop with rfl | rfl | rfl | rfl | rfl | rfl | rfl | rfl | rfl | rfl | rfl | rfl |
    rfl | rfl | rfl | rfl | rfl | rfl | rfl | rfl | rfl | rfl | rfl <;> rfl

/-- With no usable logo, the whole document contains no `drawImage`. -/
theorem noImage_renderBody (env : Env) (data : FormData) (lp : Option String)
    (out : String) (ce : List FsEffect) :
    NoImage (renderBody env data lp none out ce).ops := by
  show NoImage
    (topDecorOps (PdfColor.hex (primaryHexOf data)) (PdfColor.hex (secondaryHexOf data))
    ++ (logoOps env none).1
    ++ companyHeaderOps env data (PdfColor.hex (primaryHexOf data))
        (PdfColor.hex (secondaryHexOf data)) (logoOps env none).2
    ++ customerSectionOps data (PdfColor.hex (secondaryHexOf data)) (headerY - 65)
    ++ orderHeaderOps (headerY - 65 - 90 - 25)
    ++ tableHeaderOps (headerY - 65 - 90 - 25 - 35)
    ++ [.setFont "Helvetica" 8]
    ++ (renderRows env data (data.length + 1) 0 rowsStartY).1
    ++ totalsOps env (renderRows env data (data.length + 1) 0 rowsStartY).2.1
        (gstY env data)
    ++ deliveryAndFooterOps data (PdfColor.hex (secondaryHexOf data))
        (gstY env data - 25 - 50))
  apply noImage_append
  apply noImage_append
  apply noImage_append
  apply noImage_append
  apply noImage_append
  apply noImage_append
  apply noImage_append
  apply noImage_append
  apply noImage_append
  · exact noImage_topDecorOps _ _
  · intro op hop; simp [logoOps] at hop
  · exact noImage_companyHeaderOps _ _ _ _ _
  · exact noImage_customerSectionOps _ _ _
  · exact noImage_orderHeaderOps _
  · exact noImage_tableHeaderOps _
  · intro op hop
    simp only [List.mem_cons, List.not_mem_nil, or_false] at hop
    subst hop
    rfl
  · exact noImage_renderRows _ _ _ _ _
  · exact noImage_totalsOps _ _ _
  · exact noImage_deliveryAndFooterOps _ _ _

/-- **C4.** When the logo path ends in `.svg` (and the file exists) but the
SVG conversion fails — cairosvg unavailable or its conversion failing —
`create_invoice_pdf` still completes: it returns a document with
`logo_drawn` false, no `drawImage` call anywhere, and the only filesystem
effect is writing the output PDF. -/
theorem claim_C4_svg_conversion_failure (env : Env) (now : String) (data : FormData)
    (p out : String)
    (hsvg : endsWithSvg p = true)
    (hex2 : env.logoExists = true)
    (hfail : env.cairosvgAvailable = false ∨ env.svgConvertOk = false)
    (hp : env.hexColorOk (primaryHexOf data) = true)
    (hs : env.hexColorOk (secondaryHexOf data) = true) :
    ∃ r, create_invoice_pdf env now data (some p) out = Except.ok r ∧
      r.logoDrawn = false ∧ NoImage r.ops ∧ r.effects = [FsEffect.writeFile out] := by
  have hconv : resolveLogo env now (some p) = (none, []) := by
    rcases hfail with h | h <;>
      simp [resolveLogo, convert_svg_to_png, hex2, hsvg, h]
  refine ⟨renderBody env data (some p) none out [], ?_, rfl, ?_, ?_⟩
  · rw [create_invoice_pdf]
    simp only [hp, hs, Bool.and_self, if_true, hconv]
  · exact noImage_renderBody env data (some p) out []
  · show ([] : List FsEffect) ++ [FsEffect.writeFile out]
      ++ (if endsWithSvg p && (none : Option String).isSome
            then [FsEffect.removeFile ((none : Option String).getD "")] else [])
      = [FsEffect.writeFile out]
    simp

/-! ### Determinism of the renderer (claim C7) -/

theorem logoOps_congr (env : Env) (f1 f2 : Option String) (h : f1.isSome = f2.isSome) :
    logoOps env f1 = logoOps env f2 := by
  cases f1 <;> cases f2 <;> first | rfl | simp at h

theorem resolveLogo_isSome (env : Env) (now1 now2 : String) (lp : Option String) :
    (resolveLogo env now1 lp).1.isSome = (resolveLogo env now2 lp).1.isSome := by
  cases lp with
  | none => rfl
  | some p =>
    by_cases h1 : env.logoExists <;> by_cases h2 : endsWithSvg p <;>
      by_cases h3 : env.cairosvgAvailable <;> by_cases h4 : env.svgConvertOk <;>
      simp [resolveLogo, convert_svg_to_png, h1, h2, h3, h4]

theorem renderBody_congr (env : Env) (data : FormData) (lp : Option String)
    (out : String) (f1 f2 : Option String) (ce1 ce2 : List FsEffect)
    (h : f1.isSome = f2.isSome) :
    (renderBody env data lp f1 out ce1).ops = (renderBody env data lp f2 out ce2).ops ∧
    (renderBody env data lp f1 out ce1).subtotal = (renderBody env data lp f2 out ce2).subtotal ∧
    (renderBody env data lp f1 out ce1).logoDrawn = (renderBody env data lp f2 out ce2).logoDrawn := by
  have hl : logoOps env f1 = logoOps env f2 := logoOps_congr env f1 f2 h
  refine ⟨?_, rfl, ?_⟩
  · dsimp only [renderBody]
    rw [hl]
  · dsimp only [renderBody]
    rw [hl]

/-- The filesystem effects of a successful render are exactly the output
write, possibly bracketed by the temporary converted logo's write and
removal. -/
theorem create_invoice_pdf_effects (env : Env) (now : String) (data : FormData)
    (logo : Option String) (out : String) (r : RenderResult)
    (h : create_invoice_pdf env now data logo out = Except.ok r) :
    r.effects = [FsEffect.writeFile out] ∨
    r.effects = [FsEffect.writeFile ("uploads/conv_" ++ now ++ ".png"),
                 FsEffect.writeFile out,
                 FsEffect.removeFile ("uploads/conv_" ++ now ++ ".png")] := by
  rw [create_invoice_pdf] at h
  by_cases hcond : (env.hexColorOk (primaryHexOf data) && env.hexColorOk (secondaryHexOf data)) = true
  · rw [if_pos hcond] at h
    simp only [Except.ok.injEq] at h
    subst h
    dsimp only [renderBody]
    cases logo with
    | none => exact Or.inl rfl
    | some p =>
      by_cases h1 : env.logoExists
      · by_cases h2 : endsWithSvg p
        · by_cases h3 : env.cairosvgAvailable
          · by_cases h4 : env.svgConvertOk
            · refine Or.inr ?_
              simp [resolveLogo, convert_svg_to_png, h1, h2, h3, h4]
            · refine Or.inl ?_
              simp [resolveLogo, convert_svg_to_png, h1, h2, h3, h4]
          · refine Or.inl ?_
            simp [resolveLogo, convert_svg_to_png, h1, h2, h3]
        · refine Or.inl ?_
          simp [resolveLogo, h1, h2]
      · refine Or.inl ?_
        simp [resolveLogo, h1]
  · rw [if_neg hcond] at h
    simp at h

/-- **C7.** The renderer is a pure function of the form fields and the logo:
two runs over the same data, logo and environment (differing only in their
`datetime.now()` timestamps) issue identical canvas calls, compute the same
subtotal and the same `logo_drawn` flag; and a successful run's filesystem
effects are only the output write, plus at most the temporary converted
logo's write-then-remove. -/
theorem claim_C7_renderer_pure (env : Env) (data : FormData)
    (logo : Option String) (out : String) (now1 now2 : String) :
    (∀ r1 r2, create_invoice_pdf env now1 data logo out = Except.ok r1 →
        create_invoice_pdf env now2 data logo out = Except.ok r2 →
        r1.ops = r2.ops ∧ r1.subtotal = r2.subtotal ∧ r1.logoDrawn = r2.logoDrawn) ∧
    (∀ r, create_invoice_pdf env now1 data logo out = Except.ok r →
        r.effects = [FsEffect.writeFile out] ∨
        r.effects = [FsEffect.writeFile ("uploads/conv_" ++ now1 ++ ".png"),
                     FsEffect.writeFile out,
                     FsEffect.removeFile ("uploads/conv_" ++ now1 ++ ".png")]) := by
  constructor
  · intro r1 r2 h1 h2
    rw [create_invoice_pdf] at h1 h2
    by_cases hcond : (env.hexColorOk (primaryHexOf data) && env.hexColorOk (secondaryHexOf data)) = true
    · rw [if_pos hcond] at h1 h2
      simp only [Except.ok.injEq] at h1 h2
      subst h1
      subst h2
      exact renderBody_congr env data logo out _ _ _ _
        (resolveLogo_isSome env now1 now2 logo)
    · rw [if_neg hcond] at h1
      simp at h1
  · intro r h
    exact create_invoice_pdf_effects env now1 data logo out r h

/-- The canvas calls of a render, section by section, in source order. -/
theorem renderBody_ops_def (env : Env) (data : FormData) (lp fl : Option String)
    (out : String) (ce : List FsEffect) :
    (renderBody env data lp fl out ce).ops =
      topDecorOps (PdfColor.hex (primaryHexOf data)) (PdfColor.hex (secondaryHexOf data))
      ++ (logoOps env fl).1
      ++ companyHeaderOps env data (PdfColor.hex (primaryHexOf data))
          (PdfColor.hex (secondaryHexOf data)) (logoOps env fl).2
      ++ customerSectionOps data (PdfColor.hex (secondaryHexOf data)) (headerY - 65)
      ++ orderHeaderOps (headerY - 65 - 90 - 25)
      ++ tableHeaderOps (headerY - 65 - 90 - 25 - 35)
      ++ [.setFont "Helvetica" 8]
      ++ (renderRows env data (data.length + 1) 0 rowsStartY).1
      ++ totalsOps env (renderRows env data (data.length + 1) 0 rowsStartY).2.1
          (gstY env data)
      ++ deliveryAndFooterOps data (PdfColor.hex (secondaryHexOf data))
          (gstY env data - 25 - 50) := rfl

/-- **C8.** The document's theme colors come from the optional
`primary_color` and `secondary_color` form fields, with the defaults
`#f7a80a` and `#2d2d2d` when the fields are absent; and a successful render
does set both as fill colors. -/
theorem claim_C8_theme_colors :
    (∀ (data : FormData) (v : String),
      lookup data "primary_color" = some v → primaryHexOf data = v) ∧
    (∀ data : FormData,
      lookup data "primary_color" = none → primaryHexOf data = "#f7a80a") ∧
    (∀ (data : FormData) (v : String),
      lookup data "secondary_color" = some v → secondaryHexOf data = v) ∧
    (∀ data : FormData,
      lookup data "secondary_color" = none → secondaryHexOf data = "#2d2d2d") ∧
    (∀ (env : Env) (now : String) (data : FormData) (logo : Option String)
      (out : String) (r : RenderResult),
      create_invoice_pdf env now data logo out = Except.ok r →
      DrawOp.setFillColor (.hex (secondaryHexOf data)) ∈ r.ops ∧
      DrawOp.setFillColor (.hex (primaryHexOf data)) ∈ r.ops) := by
  refine ⟨?_, ?_, ?_, ?_, ?_⟩
  · intro data v h; rw [primaryHexOf, getD, h]; rfl
  · intro data h; rw [primaryHexOf, getD, h]; rfl
  · intro data v h; rw [secondaryHexOf, getD, h]; rfl
  · intro data h; rw [secondaryHexOf, getD, h]; rfl
  · intro env now data logo out r h
    rw [create_invoice_pdf] at h
    by_cases hcond : (env.hexColorOk (primaryHexOf data)
        && env.hexColorOk (secondaryHexOf data)) = true
    · rw [if_pos hcond] at h
      simp only [Except.ok.injEq] at h
      subst h
      rw [renderBody_ops_def]
      constructor
      · simp only [List.mem_append]
        refine Or.inl (Or.inl (Or.inl (Or.inl (Or.inl (Or.inl (Or.inl (Or.inl (Or.inl ?_))))))))
        simp [topDecorOps]
      · simp only [List.mem_append]
        refine Or.inl (Or.inl (Or.inl (Or.inl (Or.inl (Or.inl (Or.inl (Or.inl (Or.inl ?_))))))))
        simp [topDecorOps]
    · rw [if_neg hcond] at h
      simp at h

/-- **C6.** Whenever the handler saved an uploaded logo, removing that file
is the last filesystem effect of the request — the `finally` block runs on
the success path and on every error path alike. -/
theorem claim_C6_saved_logo_removed (henv : HEnv) (req : HRequest) (p : String)
    (h : (generate_invoice henv req).savedLogo = some p) :
    (generate_invoice henv req).effects.getLast? = some (FsEffect.removeFile p) := by
  rw [generate_invoice_savedLogo] at h
  unfold generate_invoice
  cases hst : stageLogo henv req with
  | error e => rw [hst] at h; simp at h
  | ok v =>
    obtain ⟨lp, se⟩ := v
    rw [hst] at h
    simp only at h
    subst h
    cases hcr : create_invoice_pdf henv.renv henv.now req.form (some p)
        ("output/inv_" ++ henv.timestamp ++ ".pdf") with
    | error effs =>
      simp only [hcr]
      exact List.getLast?_concat _
    | ok r =>
      by_cases hs : henv.sendOk <;> simp only [hcr, hs, if_true, if_false] <;>
        exact List.getLast?_concat _

/-- **C10.** A request with no usable logo — no `logo` part at all, or a
filename `allowed_file` rejects — is not an error: nothing is saved to the
upload folder, and (with valid theme colors and a working `send_file`) the
handler still returns the generated, logo-free PDF as the success
response whose only filesystem effect is the output write. -/
theorem claim_C10_disallowed_logo_not_an_error (henv : HEnv) (req : HRequest)
    (hlogo : req.logoFile = none ∨
      ∃ f, req.logoFile = some f ∧ allowed_file f.filename = false)
    (hp : henv.renv.hexColorOk (primaryHexOf req.form) = true)
    (hs : henv.renv.hexColorOk (secondaryHexOf req.form) = true)
    (hsend : henv.sendOk = true) :
    (generate_invoice henv req).savedLogo = none ∧
    (generate_invoice henv req).outcome =
      HOutcome.pdfAttachment ("output/inv_" ++ henv.timestamp ++ ".pdf") "invoice.pdf" ∧
    (generate_invoice henv req).effects =
      [FsEffect.writeFile ("output/inv_" ++ henv.timestamp ++ ".pdf")] ∧
    ∃ r, (generate_invoice henv req).rendered = some r ∧ r.logoDrawn = false := by
  have hst : stageLogo henv req = Except.ok (none, []) := by
    rcases hlogo with hnone | ⟨f, hsome, hreject⟩
    · rw [stageLogo, hnone]
    · rw [stageLogo, hsome]
      have : (decide ¬f.filename = "" && allowed_file f.filename) = false := by
        rw [hreject, Bool.and_false]
      simp only [ne_eq, this, Bool.false_eq_true, if_false]
  have hcr : create_invoice_pdf henv.renv henv.now req.form none
      ("output/inv_" ++ henv.timestamp ++ ".pdf") =
      Except.ok (renderBody henv.renv req.form none none
        ("output/inv_" ++ henv.timestamp ++ ".pdf") []) := by
    rw [create_invoice_pdf]
    simp only [hp, hs, Bool.and_self, if_true]
    rfl
  unfold generate_invoice
  rw [hst]
  simp only [hcr, hsend, if_true]
  refine ⟨trivial, trivial, ?_, ⟨_, rfl, rfl⟩⟩
  show ([] : List FsEffect) ++ (renderBody henv.renv req.form none none
      ("output/inv_" ++ henv.timestamp ++ ".pdf") []).effects ++ [] = _
  rw [List.append_nil, List.nil_append]
  rfl

/-! ### Concrete sample inputs (used by the witnesses below) -/

/-- A concrete environment: no cairosvg, no logo on disk, every hex color
accepted, a float parser that accepts decimal naturals, and a money format
that prints the numerator. -/
def sampleEnv : Env where
  cairosvgAvailable := false
  svgConvertOk := false
  logoExists := false
  imageSize := none
  hexColorOk := fun _ => true
  stringWidth := fun _ _ _ => 0
  pyFloat := fun s => (s.toNat?).map (fun k => (k : ℚ))
  fmtMoney := fun q => toString q.num

/-- `sampleEnv` with the logo file present on disk. -/
def sampleEnvSvg : Env := { sampleEnv with logoExists := true }

/-- Concrete form data: a kept row 0, a skipped all-blank row 1, a kept row
2 whose total fails to parse, a gap at 3, and a row 4 behind the gap. -/
def sampleData : FormData :=
  [("product_name_0", " Widget "), ("product_total_0", "10"),
   ("product_name_1", "  "), ("product_name_2", "Gadget"), ("product_total_2", "xx"),
   ("product_name_4", "Ghost"), ("product_total_4", "99")]

/-- A concrete handler environment over `sampleEnv`. -/
def sampleHEnv : HEnv where
  renv := sampleEnv
  now := "20250101000000000000"
  timestamp := "20250101_000000"
  secureFilename := fun s => s
  saveOk := true
  sendOk := true

/-- A request carrying an allowed logo upload. -/
def sampleReqLogo : HRequest := ⟨some ⟨"logo.png"⟩, []⟩

/-- A request whose upload has a disallowed extension. -/
def sampleReqBad : HRequest := ⟨some ⟨"virus.exe"⟩, []⟩

/-! ### Witnesses -/

theorem claim_C1_subtotal_and_tax_witness :
    ∃ r, create_invoice_pdf sampleEnv "TS" sampleData none "output/x.pdf" = Except.ok r ∧
      r.subtotal = subtotalSpec sampleEnv sampleData 3 ∧
      (∃ y, DrawOp.drawRightString (pageWidth - marginX - 5) y
        (sampleEnv.fmtMoney (r.subtotal * (5/100)) ++ " PKR") ∈ r.ops) ∧
      (∃ y, DrawOp.drawRightString (pageWidth - marginX - 5) y
        (sampleEnv.fmtMoney (r.subtotal * (105/100)) ++ " PKR") ∈ r.ops) :=
  claim_C1_subtotal_and_tax sampleEnv "TS" sampleData none "output/x.pdf" 3
    (by decide) (by decide) (by decide) (by decide) (by decide)

theorem claim_C4_svg_conversion_failure_witness :
    ∃ r, create_invoice_pdf sampleEnvSvg "TS" sampleData (some "logo.svg") "output/x.pdf"
        = Except.ok r ∧
      r.logoDrawn = false ∧ NoImage r.ops ∧
      r.effects = [FsEffect.writeFile "output/x.pdf"] :=
  claim_C4_svg_conversion_failure sampleEnvSvg "TS" sampleData "logo.svg" "output/x.pdf"
    (by decide) (by decide) (Or.inl (by decide)) (by decide) (by decide)

theorem claim_C6_saved_logo_removed_witness :
    (generate_invoice sampleHEnv sampleReqLogo).effects.getLast?
      = some (FsEffect.removeFile "uploads/logo.png") :=
  claim_C6_saved_logo_removed sampleHEnv sampleReqLogo "uploads/logo.png" (by decide)

theorem claim_C9_row_loop_witness :
    renderRows sampleEnv sampleData 8 0 100 = rowsSpec sampleEnv sampleData 3 0 100 ∧
    (renderRows sampleEnv sampleData 8 0 100).2.1 = subtotalSpec sampleEnv sampleData 3 :=
  claim_C9_row_loop sampleEnv sampleData 3 8 100 (by decide) (by decide) (by decide)

theorem claim_C10_disallowed_logo_not_an_error_witness :
    (generate_invoice sampleHEnv sampleReqBad).savedLogo = none ∧
    (generate_invoice sampleHEnv sampleReqBad).outcome =
      HOutcome.pdfAttachment ("output/inv_" ++ sampleHEnv.timestamp ++ ".pdf") "invoice.pdf" ∧
    (generate_invoice sampleHEnv sampleReqBad).effects =
      [FsEffect.writeFile ("output/inv_" ++ sampleHEnv.timestamp ++ ".pdf")] ∧
    ∃ r, (generate_invoice sampleHEnv sampleReqBad).rendered = some r ∧
      r.logoDrawn = false :=
  claim_C10_disallowed_logo_not_an_error sampleHEnv sampleReqBad
    (Or.inr ⟨⟨"virus.exe"⟩, rfl, by decide⟩) (by decide) (by decide) rfl

end InvoiceGen
